import Mathlib

/-!
Shallow embedding of the VillageGame repository: `src/game/engine.ts`,
`src/game/player.ts`, `src/game/enemy.ts` and the two controller variants
(`src/game/gameController.ts` and the extended controller in
`unnamed/part_001`).  All JavaScript numbers that the verified claims touch
are exact rationals here (the source only adds, subtracts, multiplies,
divides and compares them), so `ℚ` models them faithfully.
-/

/-- An axis-aligned rectangle, the positional data shared by every game
object (`x`, `y`, `width`, `height` in the source interfaces). -/
structure Rect where
  x : ℚ
  y : ℚ
  width : ℚ
  height : ℚ
deriving Repr, DecidableEq

/-- `GameController.checkCollision`: strict axis-aligned overlap test. -/
def checkCollision (r1 r2 : Rect) : Bool :=
  decide (r1.x < r2.x + r2.width) && decide (r1.x + r1.width > r2.x) &&
  decide (r1.y < r2.y + r2.height) && decide (r1.y + r1.height > r2.y)

/-- `Weapon` interface from `engine.ts`. -/
structure Weapon where
  id : String
  name : String
  damage : ℚ
  range : ℚ
  cooldown : ℚ
  lastUsed : ℚ
deriving Repr, DecidableEq

/-- `BuildingType` from `player.ts`: a catalog entry of purchasable
buildings. -/
structure BuildingType where
  id : String
  name : String
  cost : ℚ
  type : String
  defense : Option ℚ
  health : ℚ
  description : String
deriving Repr, DecidableEq

/-- `Building` interface from `engine.ts`: a placed building instance. -/
structure Building where
  id : String
  name : String
  health : ℚ
  defense : ℚ
  type : String
  x : ℚ
  y : ℚ
  width : ℚ
  height : ℚ
  lastAction : Option ℚ
  actionInterval : Option ℚ
deriving Repr, DecidableEq

/-- The rectangle of a placed building. -/
def Building.rect (b : Building) : Rect := ⟨b.x, b.y, b.width, b.height⟩

/-- Facing direction of the player (`'left' | 'right'`). -/
inductive Direction where
  | left
  | right
deriving Repr, DecidableEq

/-- The `Player` class state (`player.ts`).  The `inventory` field of the
source is the concatenation of `weapons` and `buildings` and is never read
by game logic, so it is not duplicated here. -/
structure Player where
  id : String
  x : ℚ
  y : ℚ
  width : ℚ
  height : ℚ
  speed : ℚ
  direction : Direction
  weapons : List Weapon
  currentWeapon : ℕ
  isAttacking : Bool
  attackCooldown : ℚ
  health : ℚ
  maxHealth : ℚ
  coins : ℚ
  buildings : List BuildingType
  selectedBuildingIndex : ℕ
deriving Repr, DecidableEq

/-- The rectangle of the player. -/
def Player.rect (p : Player) : Rect := ⟨p.x, p.y, p.width, p.height⟩

/-- Out-of-range list indexing in JavaScript yields `undefined` and the
source would crash dereferencing it; it never happens because the weapon
index is always valid.  A default weapon makes the Lean translation total;
the in-range behaviour is unaffected. -/
def defaultWeapon : Weapon :=
  { id := "", name := "", damage := 0, range := 0, cooldown := 0, lastUsed := 0 }

/-- Default building-template for the same totalization purpose. -/
def defaultBuildingType : BuildingType :=
  { id := "", name := "", cost := 0, type := "", defense := none, health := 0,
    description := "" }

/-- The sword weapon of the player constructor. -/
def swordWeapon : Weapon :=
  { id := "sword", name := "Sword", damage := 10, range := 50,
    cooldown := 1/2, lastUsed := 0 }

/-- The bow weapon of the player constructor. -/
def bowWeapon : Weapon :=
  { id := "bow", name := "Bow", damage := 5, range := 200,
    cooldown := 1, lastUsed := 0 }

/-- Defense-tower catalog entry of the player constructor. -/
def defenseTowerTemplate : BuildingType :=
  { id := "defense-tower", name := "Defense Tower", cost := 25,
    type := "defense", defense := some 10, health := 100,
    description := "Attacks nearby enemies automatically" }

/-- Resource-building catalog entry of the player constructor. -/
def resourceBuildingTemplate : BuildingType :=
  { id := "resource-building", name := "Resource Building", cost := 40,
    type := "resource", defense := none, health := 80,
    description := "Generates coins over time" }

/-- Wall catalog entry of the player constructor. -/
def wallTemplate : BuildingType :=
  { id := "wall", name := "Wall", cost := 15, type := "defense",
    defense := some 5, health := 150,
    description := "Blocks enemy path" }

/-- Guard-post catalog entry of the player constructor. -/
def guardPostTemplate : BuildingType :=
  { id := "guard-post", name := "Guard Post", cost := 60, type := "defense",
    defense := some 15, health := 120,
    description := "Spawns guards to help defend" }

/-- The `Player` constructor. -/
def initPlayer (x y : ℚ) : Player :=
  { id := "player", x := x, y := y, width := 32, height := 48,
    speed := 200, direction := .right,
    weapons := [swordWeapon, bowWeapon], currentWeapon := 0,
    isAttacking := false, attackCooldown := 0,
    health := 100, maxHealth := 100, coins := 50,
    buildings := [defenseTowerTemplate, resourceBuildingTemplate,
                  wallTemplate, guardPostTemplate],
    selectedBuildingIndex := 0 }

/-- `this.weapons[this.currentWeapon]`. -/
def Player.getCurrentWeapon (p : Player) : Weapon :=
  p.weapons.getD p.currentWeapon defaultWeapon

/-- `Player.update(delta)`: decrement the attack-animation countdown and
every weapon's `lastUsed` timer (clamped at 0). -/
def Player.update (p : Player) (delta : ℚ) : Player :=
  let p1 :=
    if p.isAttacking then
      let ac := p.attackCooldown - delta
      if ac ≤ 0 then { p with attackCooldown := ac, isAttacking := false }
      else { p with attackCooldown := ac }
    else p
  { p1 with weapons := p1.weapons.map (fun w =>
      if w.lastUsed > 0 then { w with lastUsed := max 0 (w.lastUsed - delta) }
      else w) }

/-- `Player.attack()`: returns the new player state and whether the attack
was performed. -/
def Player.attack (p : Player) : Player × Bool :=
  let w := p.getCurrentWeapon
  if w.lastUsed ≤ 0 then
    ({ p with
        isAttacking := true,
        attackCooldown := 1/5,
        weapons := p.weapons.set p.currentWeapon { w with lastUsed := w.cooldown } },
     true)
  else (p, false)

/-- `Player.switchWeapon()`. -/
def Player.switchWeapon (p : Player) : Player :=
  { p with currentWeapon := (p.currentWeapon + 1) % p.weapons.length }

/-- `Player.takeDamage(amount)`: returns the new state and whether the
player died. -/
def Player.takeDamage (p : Player) (amount : ℚ) : Player × Bool :=
  let h := max 0 (p.health - amount)
  ({ p with health := h }, decide (h ≤ 0))

/-- `Player.heal(amount)`. -/
def Player.heal (p : Player) (amount : ℚ) : Player :=
  { p with health := min p.maxHealth (p.health + amount) }

/-- `Player.addCoins(amount)`. -/
def Player.addCoins (p : Player) (amount : ℚ) : Player :=
  { p with coins := p.coins + amount }

/-- `Player.useCoins(amount)`: returns the new state and whether the coins
were spent. -/
def Player.useCoins (p : Player) (amount : ℚ) : Player × Bool :=
  if p.coins ≥ amount then ({ p with coins := p.coins - amount }, true)
  else (p, false)

/-- `Player.getSelectedBuilding()`. -/
def Player.getSelectedBuilding (p : Player) : BuildingType :=
  p.buildings.getD p.selectedBuildingIndex defaultBuildingType

/-- `Player.nextBuilding()`: advances the selection cursor and returns the
newly selected template. -/
def Player.nextBuilding (p : Player) : Player × BuildingType :=
  let p' := { p with selectedBuildingIndex :=
                (p.selectedBuildingIndex + 1) % p.buildings.length }
  (p', p'.getSelectedBuilding)

/-- `Player.previousBuilding()`: the source computes
`(index - 1 + length) % length` over JavaScript numbers; over `ℕ` the same
value is `(index + length - 1) % length`. -/
def Player.previousBuilding (p : Player) : Player × BuildingType :=
  let p' := { p with selectedBuildingIndex :=
                (p.selectedBuildingIndex + p.buildings.length - 1) % p.buildings.length }
  (p', p'.getSelectedBuilding)

/-- `Player.canAffordCurrentBuilding()`. -/
def Player.canAffordCurrentBuilding (p : Player) : Bool :=
  decide (p.coins ≥ p.getSelectedBuilding.cost)

/-- `Player.moveLeft(delta)`. -/
def Player.moveLeft (p : Player) (delta : ℚ) : Player :=
  { p with x := p.x - p.speed * delta, direction := .left }

/-- `Player.moveRight(delta)`. -/
def Player.moveRight (p : Player) (delta : ℚ) : Player :=
  { p with x := p.x + p.speed * delta, direction := .right }

/-- The player invariant stated in the spec: bounded health, non-negative
coins, valid weapon index. -/
def PlayerInv (p : Player) : Prop :=
  0 ≤ p.health ∧ p.health ≤ p.maxHealth ∧ 0 ≤ p.coins ∧
    p.currentWeapon < p.weapons.length

/-- C5: `useCoins(n)` on a player with `coins = c` returns true and leaves
`coins = c - n` (all other fields unchanged) iff `c ≥ n`; otherwise it
returns false and leaves the player entirely unchanged. -/
theorem useCoins_spec (p : Player) (n : ℚ) :
    (p.coins ≥ n → p.useCoins n = ({ p with coins := p.coins - n }, true)) ∧
    (¬ p.coins ≥ n → p.useCoins n = (p, false)) ∧
    (((p.useCoins n).2 = true ∧ (p.useCoins n).1.coins = p.coins - n) ↔ p.coins ≥ n) := by
  refine ⟨fun h => by simp [Player.useCoins, h], fun h => by simp [Player.useCoins, h], ?_⟩
  constructor
  · intro ⟨h1, _⟩
    by_contra h
    simp [Player.useCoins, h] at h1
  · intro h
    simp [Player.useCoins, h]

/-- Witness for C5 at a concrete input: the freshly constructed player has
50 coins, so spending 20 succeeds and leaves 30. -/
theorem useCoins_spec_witness :
    (initPlayer 0 0).useCoins 20
      = ({ initPlayer 0 0 with coins := 30 }, true) := by
  have h := (useCoins_spec (initPlayer 0 0) 20).1 (by norm_num [initPlayer])
  rw [h]
  norm_num [initPlayer]

/-- C9: every Player operation, given non-negative damage/heal/coin
amounts, preserves the invariant `0 ≤ health ≤ maxHealth`, `coins ≥ 0`,
and a valid current-weapon index. -/
theorem player_ops_preserve_inv (p : Player) (d a h c n : ℚ)
    (_hd : 0 ≤ d) (ha : 0 ≤ a) (hh : 0 ≤ h) (hc : 0 ≤ c) (_hn : 0 ≤ n)
    (hp : PlayerInv p) :
    PlayerInv (p.update d) ∧ PlayerInv (p.attack).1 ∧
    PlayerInv p.switchWeapon ∧ PlayerInv (p.takeDamage a).1 ∧
    PlayerInv (p.heal h) ∧ PlayerInv (p.addCoins c) ∧
    PlayerInv (p.useCoins n).1 ∧ PlayerInv (p.nextBuilding).1 ∧
    PlayerInv (p.previousBuilding).1 := by
  obtain ⟨h1, h2, h3, h4⟩ := hp
  refine ⟨?_, ?_, ?_, ?_, ?_, ?_, ?_, ?_, ?_⟩
  · simp only [Player.update, PlayerInv]
    split
    · split <;> simpa using ⟨h1, h2, h3, h4⟩
    · simpa using ⟨h1, h2, h3, h4⟩
  · simp only [Player.attack, PlayerInv]
    split
    · simpa [List.length_set] using ⟨h1, h2, h3, h4⟩
    · exact ⟨h1, h2, h3, h4⟩
  · exact ⟨h1, h2, h3, Nat.mod_lt _ (by omega)⟩
  · simp only [Player.takeDamage, PlayerInv]
    exact ⟨le_max_left _ _, max_le (le_trans h1 h2) (by linarith), h3, h4⟩
  · simp only [Player.heal, PlayerInv]
    exact ⟨le_min (le_trans h1 h2) (by linarith), min_le_left _ _, h3, h4⟩
  · simp only [Player.addCoins, PlayerInv]
    exact ⟨h1, h2, by linarith, h4⟩
  · simp only [Player.useCoins, PlayerInv]
    split
    · next hcn => exact ⟨h1, h2, by simpa using by linarith, h4⟩
    · exact ⟨h1, h2, h3, h4⟩
  · simp only [Player.nextBuilding, PlayerInv]
    exact ⟨h1, h2, h3, h4⟩
  · simp only [Player.previousBuilding, PlayerInv]
    exact ⟨h1, h2, h3, h4⟩

/-- Witness for C9 at the freshly constructed player with unit amounts. -/
theorem player_ops_preserve_inv_witness :
    PlayerInv ((initPlayer 0 0).update 1) ∧
    PlayerInv ((initPlayer 0 0).attack).1 ∧
    PlayerInv (initPlayer 0 0).switchWeapon ∧
    PlayerInv ((initPlayer 0 0).takeDamage 1).1 ∧
    PlayerInv ((initPlayer 0 0).heal 1) ∧
    PlayerInv ((initPlayer 0 0).addCoins 1) ∧
    PlayerInv ((initPlayer 0 0).useCoins 1).1 ∧
    PlayerInv ((initPlayer 0 0).nextBuilding).1 ∧
    PlayerInv ((initPlayer 0 0).previousBuilding).1 :=
  player_ops_preserve_inv (initPlayer 0 0) 1 1 1 1 1
    (by norm_num) (by norm_num) (by norm_num) (by norm_num) (by norm_num)
    (by constructor <;> norm_num [initPlayer])

/-- An element of an interleaving of `Player.attack()` calls and
`Player.update(delta)` calls. -/
inductive PEvent where
  | att
  | upd (delta : ℚ)
deriving Repr, DecidableEq

/-- Run an interleaving of attack and update calls on a player. -/
def runPlayer : List PEvent → Player → Player
  | [], p => p
  | .att :: es, p => runPlayer es (p.attack).1
  | .upd d :: es, p => runPlayer es (p.update d)

/-- Count the `attack()` calls of the interleaving that return true. -/
def attackSuccesses : List PEvent → Player → ℕ
  | [], _ => 0
  | .att :: es, p =>
      (if (p.attack).2 then 1 else 0) + attackSuccesses es (p.attack).1
  | .upd d :: es, p => attackSuccesses es (p.update d)

/-- Cumulative simulated time of an interleaving: the sum of the update
deltas. -/
def totalTime : List PEvent → ℚ
  | [] => 0
  | .att :: es => totalTime es
  | .upd d :: es => d + totalTime es

theorem totalTime_nonneg (es : List PEvent)
    (h : ∀ d, PEvent.upd d ∈ es → 0 ≤ d) : 0 ≤ totalTime es := by
  induction es with
  | nil => simp [totalTime]
  | cons e es ih =>
      cases e with
      | att => exact ih (fun d hd => h d (List.mem_cons_of_mem _ hd))
      | upd d =>
          have hd := h d (List.mem_cons_self _ _)
          have := ih (fun d' hd' => h d' (List.mem_cons_of_mem _ hd'))
          simp only [totalTime]
          linarith


theorem getCurrentWeapon_def (p : Player) :
    p.getCurrentWeapon = (p.weapons[p.currentWeapon]?).getD defaultWeapon := by
  simp [Player.getCurrentWeapon, List.getD_eq_getElem?_getD]

theorem update_currentWeapon (p : Player) (d : ℚ) :
    (p.update d).currentWeapon = p.currentWeapon := by
  simp only [Player.update]
  split <;> [split <;> rfl; rfl]

theorem update_weapons (p : Player) (d : ℚ) :
    (p.update d).weapons = p.weapons.map (fun w =>
      if w.lastUsed > 0 then { w with lastUsed := max 0 (w.lastUsed - d) }
      else w) := by
  simp only [Player.update]
  split <;> [split <;> rfl; rfl]

/-- While the current weapon's `lastUsed` timer exceeds the cumulative
simulated time of the remaining interleaving, no attack in it succeeds. -/
theorem no_success_within_lastUsed (es : List PEvent) : ∀ (p : Player),
    (∀ d, PEvent.upd d ∈ es → 0 ≤ d) →
    totalTime es < p.getCurrentWeapon.lastUsed →
    attackSuccesses es p = 0 := by
  induction es with
  | nil => intro p _ _; rfl
  | cons e es ih =>
      intro p hnn hlt
      cases e with
      | att =>
          have hpos : ¬ p.getCurrentWeapon.lastUsed ≤ 0 := by
            have h0 : 0 ≤ totalTime es :=
              totalTime_nonneg es (fun d hd => hnn d (List.mem_cons_of_mem _ hd))
            simp only [totalTime] at hlt
            linarith
          have hatk : p.attack = (p, false) := by
            simp [Player.attack, hpos]
          simp only [attackSuccesses, hatk]
          simpa using ih p (fun d hd => hnn d (List.mem_cons_of_mem _ hd))
            (by simpa [totalTime] using hlt)
      | upd d =>
          have hd : 0 ≤ d := hnn d (List.mem_cons_self _ _)
          have h0 : 0 ≤ totalTime es :=
            totalTime_nonneg es (fun d' hd' => hnn d' (List.mem_cons_of_mem _ hd'))
          simp only [totalTime] at hlt
          simp only [attackSuccesses]
          apply ih (p.update d) (fun d' hd' => hnn d' (List.mem_cons_of_mem _ hd'))
          rw [getCurrentWeapon_def, update_currentWeapon, update_weapons,
            List.getElem?_map]
          rw [getCurrentWeapon_def] at hlt
          cases hg : p.weapons[p.currentWeapon]? with
          | none =>
              exfalso
              rw [hg] at hlt
              simp [defaultWeapon] at hlt
              linarith
          | some w =>
              rw [hg] at hlt
              simp only [Option.getD_some] at hlt
              have hwpos : w.lastUsed > 0 := by linarith
              simp only [Option.map_some', Option.getD_some, if_pos hwpos]
              exact lt_max_of_lt_right (by linarith)

/-- C6: a successful `attack()` sets the animation flag, the 0.2-second
animation countdown and resets the weapon's `lastUsed` timer to its
cooldown; afterwards, over any interleaving of further attack and update
calls whose cumulative simulated time is below that cooldown, no attack
succeeds — so each weapon fires at most once per `cooldown` seconds of
simulated time. -/
theorem attack_cooldown_spec (p : Player) (es : List PEvent)
    (hnn : ∀ d, PEvent.upd d ∈ es → 0 ≤ d)
    (hsucc : (p.attack).2 = true)
    (hwin : totalTime es < p.getCurrentWeapon.cooldown) :
    attackSuccesses es (p.attack).1 = 0 ∧
    (p.attack).1.isAttacking = true ∧
    (p.attack).1.attackCooldown = 1/5 ∧
    (p.attack).1.getCurrentWeapon.lastUsed = p.getCurrentWeapon.cooldown := by
  have hcond : p.getCurrentWeapon.lastUsed ≤ 0 := by
    by_contra hc
    simp [Player.attack, hc] at hsucc
  have hfst : (p.attack).1 = { p with
      isAttacking := true, attackCooldown := 1/5,
      weapons := p.weapons.set p.currentWeapon
        { p.getCurrentWeapon with lastUsed := p.getCurrentWeapon.cooldown } } := by
    simp [Player.attack, hcond]
  have hlu : (p.attack).1.getCurrentWeapon.lastUsed = p.getCurrentWeapon.cooldown := by
    rw [hfst, getCurrentWeapon_def]
    dsimp only
    by_cases hlen : p.currentWeapon < p.weapons.length
    · rw [List.getElem?_set_self hlen]
      rfl
    · rw [List.set_eq_of_length_le (by omega),
        List.getElem?_eq_none_iff.mpr (by omega)]
      rw [getCurrentWeapon_def, List.getElem?_eq_none_iff.mpr (by omega)]
      rfl
  refine ⟨?_, by rw [hfst], by rw [hfst], hlu⟩
  exact no_success_within_lastUsed es (p.attack).1 hnn (by rw [hlu]; exact hwin)

/-- Witness for C6: the fresh player attacks with the sword
(cooldown 0.5s); within a window of 0.3 simulated seconds a further attack
attempt does not succeed. -/
theorem attack_cooldown_spec_witness :
    attackSuccesses [PEvent.upd (3/10), PEvent.att] ((initPlayer 0 0).attack).1 = 0 ∧
    ((initPlayer 0 0).attack).1.isAttacking = true ∧
    ((initPlayer 0 0).attack).1.attackCooldown = 1/5 ∧
    ((initPlayer 0 0).attack).1.getCurrentWeapon.lastUsed
      = (initPlayer 0 0).getCurrentWeapon.cooldown :=
  attack_cooldown_spec (initPlayer 0 0) [PEvent.upd (3/10), PEvent.att]
    (by
      intro d hd
      simp only [List.mem_cons, List.not_mem_nil, or_false] at hd
      rcases hd with h | h
      · injection h with h
        rw [h]
        norm_num
      · simp at h)
    (by decide)
    (by norm_num [totalTime, initPlayer, Player.getCurrentWeapon, swordWeapon])

/-- The `Enemy` class state (`enemy.ts`).  Pure-rendering fields (color,
animation counters) are not part of the embedding; the flying-offset they
feed only affects the movement direction, which involves `Math.sqrt` and is
handled by the parameterized drift step of the controller model. -/
structure Enemy where
  id : String
  x : ℚ
  y : ℚ
  width : ℚ
  height : ℚ
  speed : ℚ
  health : ℚ
  maxHealth : ℚ
  damage : ℚ
  target : Option (ℚ × ℚ)
  attackCooldown : ℚ
  isFlying : Bool
  rewardCoins : ℚ
deriving Repr, DecidableEq

/-- The rectangle of an enemy. -/
def Enemy.rect (e : Enemy) : Rect := ⟨e.x, e.y, e.width, e.height⟩

/-- `Enemy.setTarget(x, y)`. -/
def Enemy.setTarget (e : Enemy) (x y : ℚ) : Enemy := { e with target := some (x, y) }

/-- `Enemy.attack()`: returns the updated enemy and the damage dealt
(0 when the 1-second cooldown has not elapsed). -/
def Enemy.attack (e : Enemy) : Enemy × ℚ :=
  if e.attackCooldown ≤ 0 then ({ e with attackCooldown := 1 }, e.damage)
  else (e, 0)

/-- `Enemy.takeDamage(amount)`: returns the updated enemy and whether it
died. -/
def Enemy.takeDamage (e : Enemy) (amount : ℚ) : Enemy × Bool :=
  let h := max 0 (e.health - amount)
  ({ e with health := h }, decide (h ≤ 0))

/-- `Enemy.getReward()`. -/
def Enemy.getReward (e : Enemy) : ℚ := e.rewardCoins

/-- The cooldown-decrement line of `Enemy.update(delta)`.  The movement
portion of `Enemy.update` divides by `Math.sqrt(dx*dx + dy*dy)`, an
irrational quantity, so position changes are modeled by the parameterized
drift step of the controller model instead. -/
def Enemy.tickCooldown (e : Enemy) (delta : ℚ) : Enemy :=
  if e.attackCooldown > 0 then { e with attackCooldown := e.attackCooldown - delta }
  else e

/-- The `Guard` class state (`engine.ts`).  The `targetEnemy` object
reference is modeled by the enemy's id. -/
structure Guard where
  id : String
  x : ℚ
  y : ℚ
  width : ℚ
  height : ℚ
  damage : ℚ
  range : ℚ
  targetId : Option String
  attackCooldown : ℚ
deriving Repr, DecidableEq

/-- The `Guard` constructor (sizes 20×30, damage 5, range 150). -/
def initGuard (gid : String) (x y : ℚ) : Guard :=
  { id := gid, x := x, y := y, width := 20, height := 30,
    damage := 5, range := 150, targetId := none, attackCooldown := 0 }

/-- `Guard.update(delta)`. -/
def Guard.update (g : Guard) (delta : ℚ) : Guard :=
  if g.attackCooldown > 0 then { g with attackCooldown := g.attackCooldown - delta }
  else g

/-- `Guard.setTarget(enemy)`. -/
def Guard.setTarget (g : Guard) (eid : String) : Guard := { g with targetId := some eid }

/-- `Guard.attack()`: returns the updated guard and the damage dealt
(0 when the 1.5-second cooldown has not elapsed). -/
def Guard.attack (g : Guard) : Guard × ℚ :=
  if g.attackCooldown ≤ 0 then ({ g with attackCooldown := 3/2 }, g.damage)
  else (g, 0)

/-- Day/night cycle value (the source strings day and night). -/
inductive DayCycle where
  | day
  | night
deriving Repr, DecidableEq

/-- The opposite cycle (`cycle === 'day' ? 'night' : 'day'`). -/
def DayCycle.flip : DayCycle → DayCycle
  | .day => .night
  | .night => .day

/-- The mutable `GameEngine` state (`engine.ts`): day/night clock, building
list, village health, the keys of the entity registry (the registry maps
ids to objects; the objects themselves live in the controller state), and
the running flag.  Canvas/render state is presentation only. -/
structure EngineState where
  cycle : DayCycle
  cycleTime : ℚ
  cycleDuration : ℚ
  buildings : List Building
  villageHealth : ℚ
  registryIds : List String
  isRunning : Bool
deriving Repr, DecidableEq

/-- `GameEngine.addGameObject` on the registry keys: a map `set` keeps the
key set unchanged when the id is already present. -/
def addId (l : List String) (id : String) : List String :=
  if id ∈ l then l else l ++ [id]

/-- The `villageCenter` building pushed by `GameEngine.setupVillage`
(canvas 800×600, so `centerX = 400`, `centerY = 400`). -/
def villageCenterB : Building :=
  { id := "village-center", name := "Village Center", health := 200,
    defense := 0, type := "main", x := 350, y := 400, width := 100,
    height := 80, lastAction := none, actionInterval := none }

/-- One villager house of `GameEngine.setupVillage`. -/
def houseB (i : ℕ) (x y : ℚ) : Building :=
  { id := "house-" ++ toString i, name := "Villager House " ++ toString (i + 1),
    health := 100, defense := 0, type := "house", x := x, y := y,
    width := 60, height := 50, lastAction := none, actionInterval := none }

/-- The engine constructor state: `setupCanvas` → `setupVillage` seeds the
village center and five houses; clock starts at day, elapsed 0,
duration 60 s; village health 100; registry empty; not running. -/
def engineInit : EngineState :=
  { cycle := .day, cycleTime := 0, cycleDuration := 60,
    buildings := [villageCenterB,
      houseB 0 250 320, houseB 1 480 340, houseB 2 220 450,
      houseB 3 520 430, houseB 4 320 280],
    villageHealth := 100, registryIds := [], isRunning := false }

/-- `GameEngine.getVillageHealth()`. -/
def EngineState.getVillageHealth (s : EngineState) : ℚ := s.villageHealth

/-- `GameEngine.damageVillage(amount)`: defined by the source but — as
claim C10 observes — never invoked by any code path. -/
def damageVillage (s : EngineState) (amount : ℚ) : EngineState × Bool :=
  let h := max 0 (s.villageHealth - amount)
  ({ s with villageHealth := h }, decide (h ≤ 0))

/-- `GameEngine.updateDayCycle(delta)`. -/
def updateDayCycle (s : EngineState) (delta : ℚ) : EngineState :=
  let t := s.cycleTime + delta
  if t ≥ s.cycleDuration then { s with cycleTime := 0, cycle := s.cycle.flip }
  else { s with cycleTime := t }

/-- Apply a sequence of `updateDayCycle` advances. -/
def clockRun : List ℚ → EngineState → EngineState
  | [], s => s
  | d :: ds, s => clockRun ds (updateDayCycle s d)

/-- Number of cycle flips over a sequence of `updateDayCycle` advances. -/
def clockFlips : List ℚ → EngineState → ℕ
  | [], _ => 0
  | d :: ds, s =>
      (if s.cycleTime + d ≥ s.cycleDuration then 1 else 0) +
        clockFlips ds (updateDayCycle s d)

/-- Sum of a list of deltas. -/
def deltaSum : List ℚ → ℚ
  | [] => 0
  | d :: ds => d + deltaSum ds

theorem updateDayCycle_cycleDuration (s : EngineState) (d : ℚ) :
    (updateDayCycle s d).cycleDuration = s.cycleDuration := by
  simp only [updateDayCycle]
  split <;> rfl

theorem clockRun_cycleDuration (ds : List ℚ) : ∀ (s : EngineState),
    (clockRun ds s).cycleDuration = s.cycleDuration := by
  induction ds with
  | nil => intro s; rfl
  | cons d ds ih =>
      intro s
      rw [clockRun, ih, updateDayCycle_cycleDuration]

/-- Each advance by a non-negative delta keeps elapsed time in
`[0, duration)`. -/
theorem updateDayCycle_bounds (s : EngineState) (d : ℚ)
    (hdur : 0 < s.cycleDuration) (h0 : 0 ≤ s.cycleTime) (hd : 0 ≤ d) :
    0 ≤ (updateDayCycle s d).cycleTime ∧
    (updateDayCycle s d).cycleTime < s.cycleDuration := by
  simp only [updateDayCycle]
  split
  · exact ⟨le_refl 0, hdur⟩
  · next h =>
      push_neg at h
      exact ⟨show 0 ≤ s.cycleTime + d by linarith,
        show s.cycleTime + d < s.cycleDuration by linarith⟩

theorem clockRun_bounds (ds : List ℚ) : ∀ (s : EngineState),
    (∀ d ∈ ds, 0 ≤ d) → 0 < s.cycleDuration → 0 ≤ s.cycleTime →
    s.cycleTime < s.cycleDuration →
    0 ≤ (clockRun ds s).cycleTime ∧
    (clockRun ds s).cycleTime < s.cycleDuration := by
  induction ds with
  | nil => intro s _ _ h0 h1; exact ⟨h0, h1⟩
  | cons d ds ih =>
      intro s hds hdur h0 _
      have hd : 0 ≤ d := hds d (List.mem_cons_self _ _)
      have hb := updateDayCycle_bounds s d hdur h0 hd
      have hdur' : 0 < (updateDayCycle s d).cycleDuration := by
        rw [updateDayCycle_cycleDuration]; exact hdur
      have := ih (updateDayCycle s d) (fun d' hd' => hds d' (List.mem_cons_of_mem _ hd'))
        hdur' hb.1 (by rw [updateDayCycle_cycleDuration]; exact hb.2)
      rw [clockRun]
      rw [updateDayCycle_cycleDuration] at this
      exact this

/-- Budget bound: every flip consumes at least one full duration of
cumulative advance. -/
theorem clockFlips_budget (ds : List ℚ) : ∀ (s : EngineState),
    (∀ d ∈ ds, 0 ≤ d) → 0 ≤ s.cycleTime →
    (clockFlips ds s : ℚ) * s.cycleDuration + (clockRun ds s).cycleTime ≤
      s.cycleTime + deltaSum ds := by
  induction ds with
  | nil => intro s _ h0; simp [clockFlips, clockRun, deltaSum]
  | cons d ds ih =>
      intro s hds h0
      have hd : 0 ≤ d := hds d (List.mem_cons_self _ _)
      simp only [clockFlips, clockRun, deltaSum]
      split
      · next hge =>
          have h' := ih (updateDayCycle s d)
            (fun d' hd' => hds d' (List.mem_cons_of_mem _ hd'))
            (by simp [updateDayCycle, hge])
          have hct : (updateDayCycle s d).cycleTime = 0 := by
            simp [updateDayCycle, hge]
          have hcd : (updateDayCycle s d).cycleDuration = s.cycleDuration :=
            updateDayCycle_cycleDuration s d
          rw [hct, hcd] at h'
          push_cast
          linarith
      · next hlt =>
          have h' := ih (updateDayCycle s d)
            (fun d' hd' => hds d' (List.mem_cons_of_mem _ hd'))
            (by simp [updateDayCycle, hlt]; linarith)
          have hct : (updateDayCycle s d).cycleTime = s.cycleTime + d := by
            simp [updateDayCycle, hlt]
          have hcd : (updateDayCycle s d).cycleDuration = s.cycleDuration :=
            updateDayCycle_cycleDuration s d
          rw [hct, hcd] at h'
          push_cast
          linarith

/-- C2 (amended): starting from the constructor state (elapsed 0,
duration 60), for every sequence of non-negative deltas fed to
`updateDayCycle`, the elapsed value stays in `[0, duration)` and the cycle
flips at most once per duration of cumulative advance: `k` flips require at
least `k · duration` of cumulative delta. -/
theorem day_cycle_spec (ds : List ℚ) (hds : ∀ d ∈ ds, 0 ≤ d) :
    (0 ≤ (clockRun ds engineInit).cycleTime ∧
      (clockRun ds engineInit).cycleTime < engineInit.cycleDuration) ∧
    (clockFlips ds engineInit : ℚ) * engineInit.cycleDuration ≤ deltaSum ds := by
  constructor
  · exact clockRun_bounds ds engineInit hds (by norm_num [engineInit])
      (by norm_num [engineInit]) (by norm_num [engineInit])
  · have h := clockFlips_budget ds engineInit hds (by norm_num [engineInit])
    have hb := clockRun_bounds ds engineInit hds (by norm_num [engineInit])
      (by norm_num [engineInit]) (by norm_num [engineInit])
    have h0 : engineInit.cycleTime = 0 := rfl
    rw [h0] at h
    linarith [hb.1]

/-- Witness for C2 (amended) on the deltas 10 and 60: one flip occurs, the
elapsed value ends inside the window and the flip budget holds. -/
theorem day_cycle_spec_witness :
    (0 ≤ (clockRun [10, 60] engineInit).cycleTime ∧
      (clockRun [10, 60] engineInit).cycleTime < engineInit.cycleDuration) ∧
    (clockFlips [10, 60] engineInit : ℚ) * engineInit.cycleDuration ≤
      deltaSum [10, 60] :=
  day_cycle_spec [10, 60] (by
    intro d hd
    simp only [List.mem_cons, List.not_mem_nil, or_false] at hd
    rcases hd with h | h <;> rw [h] <;> norm_num)

/-- Counterexample to C2 as stated: a single advance of 120 seconds is a
cumulative advance of exactly two durations (engine duration 60), yet the
cycle flips only once, not twice — so the cycle does not flip exactly once
per duration of cumulative advance. -/
theorem day_cycle_exactly_once_cex :
    deltaSum [(120 : ℚ)] = 2 * engineInit.cycleDuration ∧
    clockFlips [(120 : ℚ)] engineInit = 1 := by
  constructor
  · norm_num [deltaSum, engineInit]
  · norm_num [clockFlips, engineInit, updateDayCycle]

/-- The mutable `GameController` state.  It covers both repository
variants: `selectedBuildingType` belongs to `gameController.ts` (the
simple variant), `guards` to the extended variant in `unnamed/part_001`;
every other field is common.  `toasts` is the log of notification messages
emitted so far. -/
structure ControllerState where
  engine : EngineState
  player : Player
  keysPressed : List String
  enemies : List Enemy
  guards : List Guard
  waveNumber : ℕ
  buildMode : Bool
  selectedBuildingType : String
  gameOver : Bool
  toasts : List String
deriving Repr, DecidableEq

/-- The controller constructor shared by both variants: fresh engine,
player centered at (canvas.width/2 - 16, canvas.height/2) and registered
in the engine. -/
def ctrlInit : ControllerState :=
  { engine := { engineInit with registryIds := addId engineInit.registryIds "player" },
    player := initPlayer 384 300,
    keysPressed := [], enemies := [], guards := [],
    waveNumber := 0, buildMode := false, selectedBuildingType := "defense",
    gameOver := false, toasts := [] }

/-- The `gameController.ts` constructor additionally pushes a second
village-center building into the engine's building list. -/
def ctrlInitSimple : ControllerState :=
  { ctrlInit with engine := { ctrlInit.engine with
      buildings := ctrlInit.engine.buildings ++ [villageCenterB] } }

/-- `GameController.endGame(message)` (identical in both variants). -/
def endGame (s : ControllerState) (msg : String) : ControllerState :=
  if s.gameOver then s
  else { s with
    gameOver := true,
    toasts := s.toasts ++ [msg],
    engine := { s.engine with isRunning := false } }

/-- The proposed footprint of `placeBuilding` in the `part_001` variant:
40×40 (50×60 for a guard post), centered on the mouse position. -/
def placementFootprint (p : Player) (mx my : ℚ) : Rect :=
  let sel := p.getSelectedBuilding
  let bw : ℚ := if sel.type = "guard-post" then 50 else 40
  let bh : ℚ := if sel.type = "guard-post" then 60 else 40
  ⟨mx - bw / 2, my - bh / 2, bw, bh⟩

/-- `GameController.placeBuilding` of the `part_001` variant: reject if the
selected template is unaffordable; reject if the footprint overlaps any
existing building; otherwise spend the cost and append the new building.
The timestamp-derived id is a parameter (`bid`); the delayed guard spawn of
a guard post is the separate timer step of the controller model. -/
def placeBuilding (s : ControllerState) (mx my : ℚ) (bid : String) : ControllerState :=
  let sel := s.player.getSelectedBuilding
  if ¬ s.player.canAffordCurrentBuilding then
    { s with toasts := s.toasts ++ ["Not enough coins to place " ++ sel.name] }
  else
    let fp := placementFootprint s.player mx my
    if s.engine.buildings.any (fun b => checkCollision fp b.rect) then
      { s with toasts := s.toasts ++
          ["Cannot place building here - overlaps with another building"] }
    else
      let p' := (s.player.useCoins sel.cost).1
      let nb : Building :=
        { id := bid, name := sel.name, health := sel.health,
          defense := sel.defense.getD 0, type := sel.type,
          x := fp.x, y := fp.y, width := fp.width, height := fp.height,
          lastAction := if sel.type = "resource" then some 0 else none,
          actionInterval := if sel.type = "resource" then some 10 else none }
      { s with
        player := p',
        engine := { s.engine with buildings := s.engine.buildings ++ [nb] },
        toasts := s.toasts ++
          ["Placed a " ++ sel.name ++ " for " ++ toString sel.cost ++ " coins"] }

/-- `GameController.placeBuilding` of the `gameController.ts` variant: no
affordability check, no overlap check, no coins spent — the 40×40 building
is appended unconditionally. -/
def placeBuildingSimple (s : ControllerState) (mx my : ℚ) (bid : String) :
    ControllerState :=
  let nb : Building :=
    { id := bid,
      name := if s.selectedBuildingType = "defense" then "Defense Tower"
              else "Resource Building",
      health := 100,
      defense := if s.selectedBuildingType = "defense" then 10 else 0,
      type := s.selectedBuildingType,
      x := mx - 20, y := my - 20, width := 40, height := 40,
      lastAction := none, actionInterval := none }
  { s with
    engine := { s.engine with buildings := s.engine.buildings ++ [nb] },
    toasts := s.toasts ++ ["Placed a " ++ nb.name] }


/-- C1 (amended): in the `part_001` controller variant, a `placeBuilding`
attempt whose footprint strictly overlaps an existing building is always
rejected — the player (coins included) and the building list are
unchanged — regardless of affordability. -/
theorem placeBuilding_overlap_rejected (s : ControllerState) (mx my : ℚ)
    (bid : String)
    (hov : s.engine.buildings.any
      (fun b => checkCollision (placementFootprint s.player mx my) b.rect) = true) :
    (placeBuilding s mx my bid).player = s.player ∧
    (placeBuilding s mx my bid).engine.buildings = s.engine.buildings := by
  by_cases hca : s.player.canAffordCurrentBuilding
  · simp only [placeBuilding, hca, hov, not_true, if_false, ite_true, if_true]
    simp
  · simp only [placeBuilding]
    rw [if_pos (by simp [hca])]
    simp

/-- Witness for C1 (amended): from the initial controller state, placing
the selected (affordable) defense tower over the village center is
rejected. -/
theorem placeBuilding_overlap_rejected_witness :
    (placeBuilding ctrlInit 400 440 "b1").player = ctrlInit.player ∧
    (placeBuilding ctrlInit 400 440 "b1").engine.buildings
      = ctrlInit.engine.buildings :=
  placeBuilding_overlap_rejected ctrlInit 400 440 "b1" (by
    norm_num +decide [placementFootprint, ctrlInit, initPlayer,
      Player.getSelectedBuilding, defenseTowerTemplate, engineInit,
      villageCenterB, houseB, Building.rect, checkCollision])

/-- Counterexample to C1 as stated: in the `gameController.ts` variant, a
placement attempt at (400, 450) — whose 40×40 footprint strictly overlaps
the pre-seeded village center — is not rejected: the building list grows
by one (and no coins are ever charged by this variant). -/
theorem placeBuilding_overlap_cex :
    ctrlInitSimple.engine.buildings.any
      (fun b => checkCollision ⟨380, 430, 40, 40⟩ b.rect) = true ∧
    (placeBuildingSimple ctrlInitSimple 400 450 "b1").engine.buildings.length
      = ctrlInitSimple.engine.buildings.length + 1 := by
  constructor
  · norm_num +decide [ctrlInitSimple, ctrlInit, engineInit, villageCenterB,
      houseB, Building.rect, checkCollision]
  · simp [placeBuildingSimple]

/-- C7: when the player has 50 coins and the defense tower (cost 25, health
100) is selected, placing it at a location whose footprint overlaps no
existing building succeeds: coins become 25 and the new building is
appended with the template's full starting health. -/
theorem place_tower_scenario (s : ControllerState) (mx my : ℚ) (bid : String)
    (hcoins : s.player.coins = 50)
    (hsel : s.player.getSelectedBuilding = defenseTowerTemplate)
    (hfree : ∀ b ∈ s.engine.buildings,
      checkCollision (placementFootprint s.player mx my) b.rect = false) :
    (placeBuilding s mx my bid).player.coins = 25 ∧
    (placeBuilding s mx my bid).engine.buildings = s.engine.buildings ++
      [{ id := bid, name := "Defense Tower", health := 100, defense := 10,
         type := "defense", x := mx - 20, y := my - 20, width := 40, height := 40,
         lastAction := none, actionInterval := none }] ∧
    (100 : ℚ) = defenseTowerTemplate.health := by
  have hca : s.player.canAffordCurrentBuilding = true := by
    simp only [Player.canAffordCurrentBuilding, hsel, hcoins, defenseTowerTemplate]
    norm_num
  have hno : s.engine.buildings.any
      (fun b => checkCollision (placementFootprint s.player mx my) b.rect) = false := by
    simp only [List.any_eq_false]
    intro b hb
    simp [hfree b hb]
  have hfp : placementFootprint s.player mx my = ⟨mx - 20, my - 20, 40, 40⟩ := by
    norm_num +decide [placementFootprint, hsel, defenseTowerTemplate]
  refine ⟨?_, ?_, rfl⟩
  · simp only [placeBuilding, hca, hno, not_true, if_false, Bool.false_eq_true]
    simp only [hsel, defenseTowerTemplate, Player.useCoins, hcoins]
    norm_num
  · simp only [placeBuilding, hca, hno, not_true, if_false, Bool.false_eq_true]
    simp only [hsel, hfp, defenseTowerTemplate]
    norm_num +decide

/-- Witness for C7: the fresh controller state (player holds 50 coins,
defense tower selected), mouse at (50, 50), far from every pre-seeded
building. -/
theorem place_tower_scenario_witness :
    (placeBuilding ctrlInit 50 50 "b1").player.coins = 25 ∧
    (placeBuilding ctrlInit 50 50 "b1").engine.buildings =
      ctrlInit.engine.buildings ++
      [{ id := "b1", name := "Defense Tower", health := 100, defense := 10,
         type := "defense", x := 50 - 20, y := 50 - 20, width := 40, height := 40,
         lastAction := none, actionInterval := none }] ∧
    (100 : ℚ) = defenseTowerTemplate.health :=
  place_tower_scenario ctrlInit 50 50 "b1" (by norm_num [ctrlInit, initPlayer])
    (by rfl)
    (by
      intro b hb
      fin_cases hb <;>
        norm_num +decide [placementFootprint, ctrlInit, initPlayer,
          Player.getSelectedBuilding, defenseTowerTemplate, villageCenterB,
          houseB, Building.rect, checkCollision])

/-- The body of the 60-second interval in `GameController.spawnWave`
(identical in both variants): at night with the game not over, increment
the wave counter, announce the wave, and schedule
`enemyCount = 3 + floor(waveNumber / 2)` enemy spawns at delays of
`i * 2000` milliseconds.  The returned list is the schedule of those
delays. -/
def spawnWaveCheck (s : ControllerState) : ControllerState × List ℚ :=
  if s.engine.cycle = DayCycle.night ∧ s.gameOver = false then
    let wn := s.waveNumber + 1
    let enemyCount := 3 + wn / 2
    ({ s with
        waveNumber := wn,
        toasts := s.toasts ++ ["Wave " ++ toString wn ++ " incoming!"] },
     (List.range enemyCount).map (fun i : ℕ => (i : ℚ) * 2000))
  else (s, [])

/-- C3: when the wave-spawn check fires at night with the game not over,
the wave counter is incremented and exactly `3 + floor(waveNumber / 2)`
enemy spawns are scheduled (with `waveNumber` the incremented counter, the
number of the spawning wave), staggered 2000 ms = 2 s apart (delay
`i * 2000` for the i-th spawn); in particular a first wave from counter 0
schedules 3 spawns and the wave numbered 5 schedules 5. -/
theorem spawn_wave_spec (s : ControllerState)
    (hn : s.engine.cycle = DayCycle.night) (hg : s.gameOver = false) :
    (spawnWaveCheck s).1.waveNumber = s.waveNumber + 1 ∧
    (spawnWaveCheck s).2.length = 3 + (s.waveNumber + 1) / 2 ∧
    (spawnWaveCheck s).2 = (List.range (3 + (s.waveNumber + 1) / 2)).map
      (fun i : ℕ => (i : ℚ) * 2000) ∧
    (s.waveNumber = 0 → (spawnWaveCheck s).2.length = 3) ∧
    (s.waveNumber + 1 = 5 → (spawnWaveCheck s).2.length = 5) := by
  have hpair : spawnWaveCheck s = ({ s with
      waveNumber := s.waveNumber + 1,
      toasts := s.toasts ++ ["Wave " ++ toString (s.waveNumber + 1) ++ " incoming!"] },
      (List.range (3 + (s.waveNumber + 1) / 2)).map (fun i : ℕ => (i : ℚ) * 2000)) := by
    simp only [spawnWaveCheck, hn, hg, eq_self_iff_true, and_self, if_true, ite_true]
  rw [hpair]
  exact ⟨rfl, by simp, rfl, fun h0 => by simp [h0],
    fun h5 => by simp [show s.waveNumber = 4 by omega]⟩

/-- Witness for C3: the initial controller state switched to night spawns
a wave numbered 1 with 3 scheduled enemies. -/
theorem spawn_wave_spec_witness :
    (spawnWaveCheck { ctrlInit with
        engine := { ctrlInit.engine with cycle := DayCycle.night } }).1.waveNumber
      = ctrlInit.waveNumber + 1 ∧
    (spawnWaveCheck { ctrlInit with
        engine := { ctrlInit.engine with cycle := DayCycle.night } }).2.length
      = 3 + (ctrlInit.waveNumber + 1) / 2 ∧
    (spawnWaveCheck { ctrlInit with
        engine := { ctrlInit.engine with cycle := DayCycle.night } }).2
      = (List.range (3 + (ctrlInit.waveNumber + 1) / 2)).map
          (fun i : ℕ => (i : ℚ) * 2000) ∧
    (ctrlInit.waveNumber = 0 → (spawnWaveCheck { ctrlInit with
        engine := { ctrlInit.engine with cycle := DayCycle.night } }).2.length = 3) ∧
    (ctrlInit.waveNumber + 1 = 5 → (spawnWaveCheck { ctrlInit with
        engine := { ctrlInit.engine with cycle := DayCycle.night } }).2.length = 5) :=
  spawn_wave_spec _ rfl rfl

/-- The melee attack area computed by `GameController.checkEnemyHits`
(identical in both variants): a rectangle of the weapon's range in front
of the player. -/
def attackArea (p : Player) (range : ℚ) : Rect :=
  match p.direction with
  | .right => ⟨p.x + p.width, p.y, range, p.height⟩
  | .left => ⟨p.x - range, p.y, range, p.height⟩

/-- One pass of the `for (const enemy of this.enemies)` loop of
`GameController.checkEnemyHits` in the `part_001` variant, with the
JavaScript array-iterator semantics made explicit: the iterator holds a
numeric index `i`; a splice at the current position shifts later elements
left, so the element following a removed one is skipped.  `fuel` is a
structural bound on the number of iterations; the list never grows and `i`
increases every step, so starting `fuel` at the initial list length
reproduces the loop exactly.  `indexOf(enemy)` compares object references;
enemy ids are unique, so it is modeled by `findIdx?` on the id. -/
def hitsLoop (area : Rect) (dmg : ℚ) : ℕ → ℕ → ControllerState → ControllerState
  | 0, _, s => s
  | fuel + 1, i, s =>
    if h : i < s.enemies.length then
      let e := s.enemies.get ⟨i, h⟩
      if checkCollision area e.rect then
        let r := e.takeDamage dmg
        let es1 := s.enemies.set i r.1
        if r.2 then
          let s1 := { s with
            player := s.player.addCoins r.1.getReward,
            enemies := es1,
            toasts := s.toasts ++
              ["+" ++ toString r.1.getReward ++ " coins from defeated enemy"] }
          match es1.findIdx? (fun x => x.id == e.id) with
          | some j => hitsLoop area dmg fuel (i + 1) { s1 with
              enemies := s1.enemies.eraseIdx j,
              engine := { s1.engine with
                registryIds := s1.engine.registryIds.erase e.id } }
          | none => hitsLoop area dmg fuel (i + 1) s1
        else hitsLoop area dmg fuel (i + 1) { s with enemies := es1 }
      else hitsLoop area dmg fuel (i + 1) s
    else s

/-- `GameController.checkEnemyHits` of the `part_001` variant. -/
def checkEnemyHits (s : ControllerState) : ControllerState :=
  let weapon := s.player.getCurrentWeapon
  hitsLoop (attackArea s.player weapon.range) weapon.damage s.enemies.length 0 s

theorem map_eraseIdx_comm {α β : Type} (f : α → β) (l : List α) (i : ℕ) :
    (l.eraseIdx i).map f = (l.map f).eraseIdx i := by
  rw [List.eraseIdx_eq_take_drop_succ, List.eraseIdx_eq_take_drop_succ,
    List.map_append, List.map_take, List.map_drop]

theorem set_self_getElem {α : Type} (l : List α) (i : ℕ) (h : i < l.length) :
    l.set i l[i] = l := by
  apply List.ext_getElem (by simp)
  intro j h1 h2
  rw [List.getElem_set]
  split
  · next hij => subst hij; rfl
  · rfl

theorem getElem_not_mem_eraseIdx {α : Type} [DecidableEq α] (l : List α) (i : ℕ)
    (h : i < l.length) (hn : l.Nodup) : l[i] ∉ l.eraseIdx i := by
  intro hmem
  have hperm := List.erase_getElem h (l := l)
  have hmem2 : l[i] ∈ l.erase l[i] := hperm.symm.mem_iff.mp hmem
  rw [List.Nodup.mem_erase_iff hn] at hmem2
  exact hmem2.1 rfl

theorem findIdx?_eq_some_of_first {α : Type} (p : α → Bool) :
    ∀ (l : List α) (i : ℕ) (h : i < l.length),
      p l[i] = true →
      (∀ j (hj : j < i), p (l.get ⟨j, Nat.lt_trans hj h⟩) = false) →
      l.findIdx? p = some i := by
  intro l
  induction l with
  | nil => intro i h; exact absurd h (Nat.not_lt_zero i)
  | cons a l ih =>
      intro i h hp hprev
      cases i with
      | zero =>
          rw [List.findIdx?_cons]
          simp only [List.getElem_cons_zero] at hp
          simp [hp]
      | succ i =>
          rw [List.findIdx?_cons]
          have ha : p a = false := by simpa using hprev 0 (Nat.succ_pos i)
          rw [ha]
          simp only [Bool.false_eq_true, if_false]
          rw [List.findIdx?_succ]
          have hlen : i < l.length := by simpa using Nat.lt_of_succ_lt_succ h
          have := ih i hlen (by simpa using hp)
            (fun j hj => by simpa using hprev (j + 1) (Nat.succ_lt_succ hj))
          rw [this]
          rfl

theorem not_mem_ids_set (es : List Enemy) (i : ℕ) (h : i < es.length)
    (e' : Enemy) (hid : e'.id = es[i].id) (tid : String)
    (hmem : tid ∉ es.map Enemy.id) : tid ∉ (es.set i e').map Enemy.id := by
  intro hc
  rcases List.mem_map.mp hc with ⟨x, hx, hxid⟩
  rcases List.mem_or_eq_of_mem_set hx with hx' | hx'
  · exact hmem (List.mem_map.mpr ⟨x, hx', hxid⟩)
  · subst hx'
    rw [hid] at hxid
    exact hmem (List.mem_map.mpr ⟨es[i], List.getElem_mem h, hxid⟩)

/-- The hit loop never introduces enemy ids or registry ids. -/
theorem hitsLoop_not_mem (area : Rect) (dmg : ℚ) : ∀ (fuel i : ℕ)
    (s : ControllerState) (tid : String),
    tid ∉ s.enemies.map Enemy.id → tid ∉ s.engine.registryIds →
    tid ∉ (hitsLoop area dmg fuel i s).enemies.map Enemy.id ∧
    tid ∉ (hitsLoop area dmg fuel i s).engine.registryIds := by
  intro fuel
  induction fuel with
  | zero => intro i s tid h1 h2; exact ⟨h1, h2⟩
  | succ fuel ih =>
      intro i s tid h1 h2
      rw [hitsLoop]
      by_cases hlt : i < s.enemies.length
      · rw [dif_pos hlt]
        set e := s.enemies.get ⟨i, hlt⟩ with he
        by_cases hcol : checkCollision area e.rect
        · rw [if_pos hcol]
          have hido : (e.takeDamage dmg).1.id = s.enemies[i].id := rfl
          have hset : tid ∉ (s.enemies.set i (e.takeDamage dmg).1).map Enemy.id :=
            not_mem_ids_set s.enemies i hlt _ hido tid h1
          by_cases hdead : (e.takeDamage dmg).2
          · rw [if_pos hdead]
            cases hf : (s.enemies.set i (e.takeDamage dmg).1).findIdx?
                (fun x => x.id == e.id) with
            | some j =>
                apply ih
                · intro hc
                  rcases List.mem_map.mp hc with ⟨x, hx, hxid⟩
                  exact hset (List.mem_map.mpr ⟨x, List.mem_of_mem_eraseIdx hx, hxid⟩)
                · intro hc
                  exact h2 (List.mem_of_mem_erase hc)
            | none => exact ih _ _ _ hset h2
          · rw [if_neg hdead]
            exact ih _ _ _ hset h2
        · rw [if_neg hcol]
          exact ih _ _ _ h1 h2
      · rw [dif_neg hlt]
        exact ⟨h1, h2⟩

/-- C8: `takeDamage` with damage at least the enemy's health clamps health
to exactly 0 and reports death; when the hit loop of `checkEnemyHits`
processes that enemy (at iterator position `i`, inside the attack area,
with distinct enemy/registry ids), the rest of the pass removes it from
both the active-enemy list and the entity registry. -/
theorem enemy_death_removal (s : ControllerState) (area : Rect) (dmg : ℚ)
    (i fuel : ℕ) (h : i < s.enemies.length)
    (hnodup : (s.enemies.map Enemy.id).Nodup)
    (hrnodup : s.engine.registryIds.Nodup)
    (hhit : checkCollision area s.enemies[i].rect = true)
    (hlethal : s.enemies[i].health ≤ dmg) :
    (s.enemies[i].takeDamage dmg).1.health = 0 ∧
    (s.enemies[i].takeDamage dmg).2 = true ∧
    s.enemies[i].id ∉ (hitsLoop area dmg (fuel + 1) i s).enemies.map Enemy.id ∧
    s.enemies[i].id ∉ (hitsLoop area dmg (fuel + 1) i s).engine.registryIds := by
  have hmax : max 0 (s.enemies[i].health - dmg) = 0 :=
    max_eq_left (by linarith)
  have hh0 : (s.enemies[i].takeDamage dmg).1.health = 0 := by
    simp only [Enemy.takeDamage]
    exact hmax
  have hd : (s.enemies[i].takeDamage dmg).2 = true := by
    simp only [Enemy.takeDamage, hmax]
    norm_num
  refine ⟨hh0, hd, ?_⟩
  have hilen : i < (s.enemies.set i (s.enemies[i].takeDamage dmg).1).length := by
    simpa using h
  have hmlen : i < (s.enemies.map Enemy.id).length := by simpa using h
  have hmapi : (s.enemies.map Enemy.id).get ⟨i, hmlen⟩ = s.enemies[i].id := by
    rw [List.get_eq_getElem, List.getElem_map]
  have hfi : (s.enemies.set i (s.enemies[i].takeDamage dmg).1).findIdx?
      (fun x => x.id == s.enemies[i].id) = some i := by
    apply findIdx?_eq_some_of_first _ _ i hilen
    · rw [List.getElem_set_self hilen]
      simp [Enemy.takeDamage]
    · intro j hj
      have hjlen : j < s.enemies.length :=
        Nat.lt_trans hj (by simpa using hilen)
      have hget : (s.enemies.set i (s.enemies[i].takeDamage dmg).1).get
          ⟨j, Nat.lt_trans hj hilen⟩ = s.enemies[j] := by
        rw [List.get_eq_getElem]
        show (s.enemies.set i (s.enemies[i].takeDamage dmg).1)[j] = s.enemies[j]
        exact List.getElem_set_ne (by omega) (by simpa using hjlen)
      rw [hget]
      have hne : s.enemies[j].id ≠ s.enemies[i].id := by
        intro hc
        have hjm : j < (s.enemies.map Enemy.id).length := by simpa using hjlen
        have hji : (s.enemies.map Enemy.id).get ⟨j, hjm⟩
            = (s.enemies.map Enemy.id).get ⟨i, hmlen⟩ := by
          rw [List.get_eq_getElem, List.get_eq_getElem, List.getElem_map,
            List.getElem_map]
          exact hc
        rw [List.get_eq_getElem, List.get_eq_getElem,
          hnodup.getElem_inj_iff] at hji
        have hji2 : j = i := by simpa using hji
        omega
      simpa using hne
  have hids : (s.enemies.set i (s.enemies[i].takeDamage dmg).1).map Enemy.id
      = s.enemies.map Enemy.id := by
    rw [List.map_set]
    have hr : (s.enemies[i].takeDamage dmg).1.id
        = (s.enemies.map Enemy.id).get ⟨i, hmlen⟩ := by
      rw [List.get_eq_getElem, List.getElem_map]
      rfl
    rw [hr, List.get_eq_getElem, set_self_getElem]
  rw [hitsLoop, dif_pos h]
  simp only [List.get_eq_getElem, hhit, hd, eq_self_iff_true, if_true, ite_true, hfi]
  apply hitsLoop_not_mem
  · rw [map_eraseIdx_comm, hids, ← hmapi]
    exact getElem_not_mem_eraseIdx _ i (by simpa using h) hnodup
  · intro hc
    rw [List.Nodup.mem_erase_iff hrnodup] at hc
    exact hc.1 rfl

/-- The `Enemy` constructor specialized to the skeleton entry of
`ENEMY_TYPES` (speed 70, health 20, damage 7, reward 8; every enemy is
30×45). -/
def skeletonEnemy (eid : String) (x y : ℚ) : Enemy :=
  { id := eid, x := x, y := y, width := 30, height := 45, speed := 70,
    health := 20, maxHealth := 20, damage := 7, target := none,
    attackCooldown := 0, isFlying := false, rewardCoins := 8 }

/-- A controller state with one skeleton (health 20) registered both in the
active-enemy list and in the entity registry. -/
def hitWitnessState : ControllerState :=
  { ctrlInit with
    enemies := [skeletonEnemy "enemy-0" 40 10],
    engine := { ctrlInit.engine with
      registryIds := addId ctrlInit.engine.registryIds "enemy-0" } }

/-- Witness for C8: the skeleton with health 20 takes 25 damage inside the
attack area — health clamps to 0, death is reported, and the enemy is
removed from the enemy list and the registry. -/
theorem enemy_death_removal_witness :
    ((hitWitnessState.enemies.get ⟨0, by simp [hitWitnessState]⟩).takeDamage 25).1.health = 0 ∧
    ((hitWitnessState.enemies.get ⟨0, by simp [hitWitnessState]⟩).takeDamage 25).2 = true ∧
    (hitWitnessState.enemies.get ⟨0, by simp [hitWitnessState]⟩).id ∉
      (hitsLoop ⟨32, 0, 50, 48⟩ 25 1 0 hitWitnessState).enemies.map Enemy.id ∧
    (hitWitnessState.enemies.get ⟨0, by simp [hitWitnessState]⟩).id ∉
      (hitsLoop ⟨32, 0, 50, 48⟩ 25 1 0 hitWitnessState).engine.registryIds :=
  enemy_death_removal hitWitnessState ⟨32, 0, 50, 48⟩ 25 0 0
    (by simp [hitWitnessState])
    (by simp [hitWitnessState, skeletonEnemy])
    (by decide)
    (by norm_num [hitWitnessState, skeletonEnemy, Enemy.rect, checkCollision])
    (by norm_num [hitWitnessState, skeletonEnemy])

/-- The hit loop of `GameController.checkEnemyHits` in the
`gameController.ts` variant: identical to `hitsLoop` except that no coin
reward is credited and no reward toast is emitted on a kill. -/
def hitsLoopSimple (area : Rect) (dmg : ℚ) : ℕ → ℕ → ControllerState → ControllerState
  | 0, _, s => s
  | fuel + 1, i, s =>
    if h : i < s.enemies.length then
      let e := s.enemies.get ⟨i, h⟩
      if checkCollision area e.rect then
        let r := e.takeDamage dmg
        let es1 := s.enemies.set i r.1
        if r.2 then
          match es1.findIdx? (fun x => x.id == e.id) with
          | some j => hitsLoopSimple area dmg fuel (i + 1) { s with
              enemies := es1.eraseIdx j,
              engine := { s.engine with
                registryIds := s.engine.registryIds.erase e.id } }
          | none => hitsLoopSimple area dmg fuel (i + 1) { s with enemies := es1 }
        else hitsLoopSimple area dmg fuel (i + 1) { s with enemies := es1 }
      else hitsLoopSimple area dmg fuel (i + 1) s
    else s

/-- `GameController.checkEnemyHits` of the `gameController.ts` variant. -/
def checkEnemyHitsSimple (s : ControllerState) : ControllerState :=
  let weapon := s.player.getCurrentWeapon
  hitsLoopSimple (attackArea s.player weapon.range) weapon.damage s.enemies.length 0 s

/-- The body of the `for (const enemy of this.enemies)` loop of
`GameController.updateEnemies` (identical in both variants) for the enemy
at index `k`, split into its two sequential halves.  The first half
resolves the enemy-player collision: attack gated by the enemy's 1 s
cooldown, player damage, possible game over.  The enemy list itself is not
spliced by this loop, so a plain index works. -/
def enemyPlayerPhase (k : ℕ) (s : ControllerState) : ControllerState :=
  match s.enemies[k]? with
  | none => s
  | some e =>
    if checkCollision e.rect s.player.rect then
      let ar := e.attack
      let sa := { s with enemies := s.enemies.set k ar.1 }
      if ar.2 > 0 then
        let pd := sa.player.takeDamage ar.2
        let sb := { sa with player := pd.1 }
        if pd.2 then endGame sb "Player died! The village is lost!" else sb
      else sa
    else s

/-- The second half of the loop body: the (possibly cooldown-updated)
enemy attacks the first overlapping building; a building at health ≤ 0 is
spliced out, ending the game if it was the village center. -/
def enemyBuildingPhase (k : ℕ) (s : ControllerState) : ControllerState :=
  match s.enemies[k]? with
  | none => s
  | some e1 =>
    match s.engine.buildings.findIdx? (fun b => checkCollision e1.rect b.rect) with
    | none => s
    | some j =>
      match s.engine.buildings[j]? with
      | none => s
      | some b =>
        let ar2 := e1.attack
        let s2 := { s with enemies := s.enemies.set k ar2.1 }
        if ar2.2 > 0 then
          let b' := { b with health := b.health - ar2.2 }
          if b'.health ≤ 0 then
            let s3 := { s2 with engine := { s2.engine with
              buildings := s2.engine.buildings.eraseIdx j } }
            if b.type = "main" then
              endGame s3 "Village center destroyed! Game over!"
            else
              { s3 with toasts := s3.toasts ++ ["A " ++ b.name ++ " was destroyed!"] }
          else
            { s2 with engine := { s2.engine with
              buildings := s2.engine.buildings.set j b' } }
        else s2

/-- The whole loop body for the enemy at index `k`: the player phase, then
the building phase on the resulting state. -/
def enemyInteract (k : ℕ) (s : ControllerState) : ControllerState :=
  enemyBuildingPhase k (enemyPlayerPhase k s)

/-- The `updateEnemies` iteration; the enemy list length is invariant, so
fuel = initial length reproduces the loop exactly. -/
def enemiesLoop : ℕ → ℕ → ControllerState → ControllerState
  | 0, _, s => s
  | fuel + 1, k, s =>
      if k < s.enemies.length then enemiesLoop fuel (k + 1) (enemyInteract k s)
      else s

/-- `GameController.updateEnemies` (identical in both variants). -/
def updateEnemies (s : ControllerState) : ControllerState :=
  enemiesLoop s.enemies.length 0 s

/-- The nearest-enemy scan of `GameController.updateGuards`: the source
compares Euclidean distances `Math.sqrt(dx*dx + dy*dy)` against the
running minimum (initialized to `guard.range`); all quantities are
non-negative, so comparing squares is the same total order and keeps the
model in `ℚ`. -/
def findNearestIdx (g : Guard) (es : List Enemy) : Option ℕ :=
  (es.enum.foldl (fun acc p =>
    let dx := p.2.x - g.x
    let dy := p.2.y - g.y
    if dx * dx + dy * dy < acc.1 then (dx * dx + dy * dy, some p.1) else acc)
    (g.range * g.range, (none : Option ℕ))).2

/-- The body of the guard loop of `GameController.updateGuards`
(`part_001` only) for the guard at index `k`: target the nearest enemy in
range, attack it when the 1.5 s cooldown has elapsed, and remove it from
the enemy list and the registry if it dies. -/
def guardInteract (k : ℕ) (s : ControllerState) : ControllerState :=
  match s.guards[k]? with
  | none => s
  | some g =>
    match findNearestIdx g s.enemies with
    | none => s
    | some i =>
      match s.enemies[i]? with
      | none => s
      | some e =>
        let ar := (g.setTarget e.id).attack
        let s1 := { s with guards := s.guards.set k ar.1 }
        if ar.2 > 0 then
          let ed := e.takeDamage ar.2
          let es1 := s1.enemies.set i ed.1
          if ed.2 then
            match es1.findIdx? (fun x => x.id == e.id) with
            | some j => { s1 with
                enemies := es1.eraseIdx j,
                engine := { s1.engine with
                  registryIds := s1.engine.registryIds.erase e.id } }
            | none => { s1 with enemies := es1 }
          else { s1 with enemies := es1 }
        else s1

/-- The `updateGuards` iteration (guard list length is invariant). -/
def guardsLoop : ℕ → ℕ → ControllerState → ControllerState
  | 0, _, s => s
  | fuel + 1, k, s =>
      if k < s.guards.length then guardsLoop fuel (k + 1) (guardInteract k s)
      else s

/-- `GameController.updateGuards` (`part_001` only; the simple variant has
no guards, for which this is the identity). -/
def updateGuards (s : ControllerState) : ControllerState :=
  guardsLoop s.guards.length 0 s

/-- The held-key movement applied by `GameController.checkVillageStatus`
every simulation tick. -/
def applyMovement (s : ControllerState) : Player :=
  let p0 := s.player
  let p1 := if "w" ∈ s.keysPressed then { p0 with y := p0.y - p0.speed / 60 } else p0
  let p2 := if "s" ∈ s.keysPressed then { p1 with y := p1.y + p1.speed / 60 } else p1
  let p3 := if "a" ∈ s.keysPressed then p2.moveLeft (1/60) else p2
  if "d" ∈ s.keysPressed then p3.moveRight (1/60) else p3

/-- `GameController.checkVillageStatus` (identical in both variants):
apply held movement keys, then end the game if the village aggregate
health is depleted. -/
def checkVillageStatus (s : ControllerState) : ControllerState :=
  let s1 := { s with player := applyMovement s }
  if s1.engine.getVillageHealth ≤ 0 then
    endGame s1 "Village health depleted! Game over!"
  else s1

/-- One 60 Hz simulation tick of `GameController.spawnWave`'s second
interval: a no-op once the game is over; otherwise update enemies, then
guards (`part_001`; the identity when there are none, as in the simple
variant), then the village status. -/
def simTick (s : ControllerState) : ControllerState :=
  if s.gameOver then s
  else checkVillageStatus (updateGuards (updateEnemies s))

/-- `GameEngine.updateBuildings(delta)` together with the `part_001`
resource-generated handler: advance each resource building's timer,
resetting it and firing one +5-coin event when it reaches its interval.
Returns the updated list and the number of events fired. -/
def updateBuildingsRun (delta : ℚ) : List Building → List Building × ℕ
  | [] => ([], 0)
  | b :: bs =>
    let r := updateBuildingsRun delta bs
    if b.type = "resource" then
      match b.lastAction, b.actionInterval with
      | some la, some ai =>
          if la + delta ≥ ai then ({ b with lastAction := some 0 } :: r.1, r.2 + 1)
          else ({ b with lastAction := some (la + delta) } :: r.1, r.2)
      | _, _ => (b :: r.1, r.2)
    else (b :: r.1, r.2)

/-- One frame of `GameEngine.update(delta)` plus the synchronous resource
events: advance the day/night clock and building timers, credit 5 coins
per fired resource event (the `part_001` handler), then run the registered
objects' `update` hooks — the player's full update and the cooldown lines
of enemies and guards.  The enemy movement line divides by an irrational
`Math.sqrt`, so position changes are the separate `enemyDrift` step. -/
def frameTick (delta : ℚ) (s : ControllerState) : ControllerState :=
  let eng1 := updateDayCycle s.engine delta
  let r := updateBuildingsRun delta eng1.buildings
  { s with
    engine := { eng1 with buildings := r.1 },
    player := (s.player.addCoins (5 * (r.2 : ℚ))).update delta,
    enemies := s.enemies.map (fun e => e.tickCooldown delta),
    guards := s.guards.map (fun g => g.update delta),
    toasts := s.toasts ++
      List.replicate r.2 "+5 coins generated from resource building" }

/-- The movement line of `Enemy.update` for the enemy at index `i`,
parameterized by the new position (the direction normalization divides by
`Math.sqrt(dx*dx + dy*dy)`, an irrational quantity outside `ℚ`). -/
def enemyDrift (i : ℕ) (nx ny : ℚ) (s : ControllerState) : ControllerState :=
  match s.enemies[i]? with
  | none => s
  | some e => { s with enemies := s.enemies.set i { e with x := nx, y := ny } }

/-- A fired one-shot spawn timer of `GameController.spawnEnemy`: a no-op
once the game is over, otherwise the freshly constructed enemy (position,
type and target are randomized in the source, so the enemy is a
parameter) is pushed into the enemy list and the registry. -/
def spawnEnemyTimer (e : Enemy) (s : ControllerState) : ControllerState :=
  if s.gameOver then s
  else { s with
    enemies := s.enemies ++ [e],
    engine := { s.engine with registryIds := addId s.engine.registryIds e.id } }

/-- The delayed guard spawn scheduled by placing a guard post
(`part_001`). -/
def guardSpawn (g : Guard) (s : ControllerState) : ControllerState :=
  { s with
    guards := s.guards ++ [g],
    engine := { s.engine with registryIds := addId s.engine.registryIds g.id },
    toasts := s.toasts ++ ["Guard spawned from guard post"] }

/-- `GameController.start` (both variants): `engine.start()` raises the
running flag if it is down, and the opening toast is emitted. -/
def startGame (s : ControllerState) : ControllerState :=
  let eng := if s.engine.isRunning then s.engine
             else { s.engine with isRunning := true }
  { s with
    engine := eng,
    toasts := s.toasts ++ ["Night is coming! Get ready to defend your village!"] }

/-- `GameController.stop` (both variants). -/
def stopGame (s : ControllerState) : ControllerState :=
  { s with engine := { s.engine with isRunning := false } }

/-- The keyup handler (both variants). -/
def keyupOp (key : String) (s : ControllerState) : ControllerState :=
  { s with keysPressed := s.keysPressed.erase key }

/-- The keydown handler of the `part_001` variant. -/
def keydownFull (key : String) (s : ControllerState) : ControllerState :=
  let s0 := { s with keysPressed := addId s.keysPressed key }
  if key = " " then
    let ar := s0.player.attack
    let s1 := { s0 with player := ar.1 }
    if ar.2 then checkEnemyHits s1 else s1
  else if key = "e" then
    let p' := s0.player.switchWeapon
    { s0 with
      player := p',
      toasts := s0.toasts ++ ["Switched to " ++ p'.getCurrentWeapon.name] }
  else if key = "b" then
    { s0 with
      buildMode := !s0.buildMode,
      toasts := s0.toasts ++
        [if !s0.buildMode then "Build Mode: ON" else "Build Mode: OFF"] }
  else if key = "q" then
    if s0.buildMode then
      let r := s0.player.previousBuilding
      { s0 with
        player := r.1,
        toasts := s0.toasts ++
          ["Selected: " ++ r.2.name ++ " (" ++ toString r.2.cost ++ " coins)"] }
    else s0
  else if key = "r" then
    if s0.buildMode then
      let r := s0.player.nextBuilding
      { s0 with
        player := r.1,
        toasts := s0.toasts ++
          ["Selected: " ++ r.2.name ++ " (" ++ toString r.2.cost ++ " coins)"] }
    else s0
  else if key = "h" then
    if s0.player.coins ≥ 20 then
      { s0 with
        player := ((s0.player.useCoins 20).1).heal 25,
        toasts := s0.toasts ++ ["Healed 25 health for 20 coins"] }
    else { s0 with toasts := s0.toasts ++ ["Not enough coins to heal"] }
  else s0

/-- The keydown handler of the `gameController.ts` variant. -/
def keydownSimple (key : String) (s : ControllerState) : ControllerState :=
  let s0 := { s with keysPressed := addId s.keysPressed key }
  if key = " " then
    let ar := s0.player.attack
    let s1 := { s0 with player := ar.1 }
    if ar.2 then checkEnemyHitsSimple s1 else s1
  else if key = "e" then
    let p' := s0.player.switchWeapon
    { s0 with
      player := p',
      toasts := s0.toasts ++ ["Switched to " ++ p'.getCurrentWeapon.name] }
  else if key = "b" then
    { s0 with
      buildMode := !s0.buildMode,
      toasts := s0.toasts ++
        [if !s0.buildMode then "Build Mode: ON" else "Build Mode: OFF"] }
  else if key = "1" then
    if s0.buildMode then
      { s0 with
        selectedBuildingType := "defense",
        toasts := s0.toasts ++ ["Selected: Defense Tower"] }
    else s0
  else if key = "2" then
    if s0.buildMode then
      { s0 with
        selectedBuildingType := "resource",
        toasts := s0.toasts ++ ["Selected: Resource Building"] }
    else s0
  else s0

/-- Every externally triggered mutation of either controller variant: key
events, build-mode clicks, the two interval timers, one engine frame, the
parameterized enemy movement, one-shot spawn timers, and start/stop. -/
inductive GameOp where
  | keydownFullOp (key : String)
  | keydownSimpleOp (key : String)
  | keyupO (key : String)
  | clickFull (mx my : ℚ) (bid : String)
  | clickSimple (mx my : ℚ) (bid : String)
  | waveCheck
  | simTickOp
  | frameTickOp (delta : ℚ)
  | enemyDriftOp (i : ℕ) (nx ny : ℚ)
  | spawnTimer (e : Enemy)
  | guardTimer (g : Guard)
  | startOp
  | stopOp

/-- Apply one operation to the controller state. -/
def applyOp : GameOp → ControllerState → ControllerState
  | .keydownFullOp key, s => keydownFull key s
  | .keydownSimpleOp key, s => keydownSimple key s
  | .keyupO key, s => keyupOp key s
  | .clickFull mx my bid, s => if s.buildMode then placeBuilding s mx my bid else s
  | .clickSimple mx my bid, s => if s.buildMode then placeBuildingSimple s mx my bid else s
  | .waveCheck, s => (spawnWaveCheck s).1
  | .simTickOp, s => simTick s
  | .frameTickOp delta, s => frameTick delta s
  | .enemyDriftOp i nx ny, s => enemyDrift i nx ny s
  | .spawnTimer e, s => spawnEnemyTimer e s
  | .guardTimer g, s => guardSpawn g s
  | .startOp, s => startGame s
  | .stopOp, s => stopGame s

/-- The reachable controller states: either variant's constructor state,
closed under every operation. -/
inductive Reachable : ControllerState → Prop where
  | initFull : Reachable ctrlInit
  | initSimple : Reachable ctrlInitSimple
  | step (s : ControllerState) (op : GameOp) : Reachable s → Reachable (applyOp op s)

theorem endGame_villageHealth (s : ControllerState) (m : String) :
    (endGame s m).engine.villageHealth = s.engine.villageHealth := by
  rw [endGame]
  split <;> rfl

theorem endGame_gameOver_mono (s : ControllerState) (m : String)
    (h : s.gameOver = true) : (endGame s m).gameOver = true := by
  rw [endGame]
  split <;> first | rfl | exact h

theorem hitsLoop_villageHealth (area : Rect) (dmg : ℚ) : ∀ (fuel i : ℕ)
    (s : ControllerState),
    (hitsLoop area dmg fuel i s).engine.villageHealth = s.engine.villageHealth := by
  intro fuel
  induction fuel with
  | zero => intro i s; rfl
  | succ fuel ih =>
      intro i s
      simp only [hitsLoop]
      repeat' split
      all_goals first
        | rfl
        | rw [ih]

theorem hitsLoop_gameOver (area : Rect) (dmg : ℚ) : ∀ (fuel i : ℕ)
    (s : ControllerState),
    (hitsLoop area dmg fuel i s).gameOver = s.gameOver := by
  intro fuel
  induction fuel with
  | zero => intro i s; rfl
  | succ fuel ih =>
      intro i s
      simp only [hitsLoop]
      repeat' split
      all_goals first
        | rfl
        | rw [ih]

theorem hitsLoopSimple_villageHealth (area : Rect) (dmg : ℚ) : ∀ (fuel i : ℕ)
    (s : ControllerState),
    (hitsLoopSimple area dmg fuel i s).engine.villageHealth
      = s.engine.villageHealth := by
  intro fuel
  induction fuel with
  | zero => intro i s; rfl
  | succ fuel ih =>
      intro i s
      simp only [hitsLoopSimple]
      repeat' split
      all_goals first
        | rfl
        | rw [ih]

theorem hitsLoopSimple_gameOver (area : Rect) (dmg : ℚ) : ∀ (fuel i : ℕ)
    (s : ControllerState),
    (hitsLoopSimple area dmg fuel i s).gameOver = s.gameOver := by
  intro fuel
  induction fuel with
  | zero => intro i s; rfl
  | succ fuel ih =>
      intro i s
      simp only [hitsLoopSimple]
      repeat' split
      all_goals first
        | rfl
        | rw [ih]

theorem enemyPlayerPhase_villageHealth (k : ℕ) (s : ControllerState) :
    (enemyPlayerPhase k s).engine.villageHealth = s.engine.villageHealth := by
  simp only [enemyPlayerPhase]
  repeat' split
  all_goals first
    | rfl
    | rw [endGame_villageHealth]

theorem enemyPlayerPhase_gameOver_mono (k : ℕ) (s : ControllerState)
    (h : s.gameOver = true) : (enemyPlayerPhase k s).gameOver = true := by
  simp only [enemyPlayerPhase]
  repeat' split
  all_goals first
    | exact h
    | exact endGame_gameOver_mono _ _ h

theorem enemyBuildingPhase_villageHealth (k : ℕ) (s : ControllerState) :
    (enemyBuildingPhase k s).engine.villageHealth = s.engine.villageHealth := by
  simp only [enemyBuildingPhase]
  repeat' split
  all_goals first
    | rfl
    | rw [endGame_villageHealth]

theorem enemyBuildingPhase_gameOver_mono (k : ℕ) (s : ControllerState)
    (h : s.gameOver = true) : (enemyBuildingPhase k s).gameOver = true := by
  simp only [enemyBuildingPhase]
  repeat' split
  all_goals first
    | exact h
    | exact endGame_gameOver_mono _ _ h

theorem enemyInteract_villageHealth (k : ℕ) (s : ControllerState) :
    (enemyInteract k s).engine.villageHealth = s.engine.villageHealth := by
  rw [enemyInteract, enemyBuildingPhase_villageHealth, enemyPlayerPhase_villageHealth]

theorem enemyInteract_gameOver_mono (k : ℕ) (s : ControllerState)
    (h : s.gameOver = true) : (enemyInteract k s).gameOver = true := by
  rw [enemyInteract]
  exact enemyBuildingPhase_gameOver_mono _ _ (enemyPlayerPhase_gameOver_mono _ _ h)

theorem enemiesLoop_villageHealth : ∀ (fuel k : ℕ) (s : ControllerState),
    (enemiesLoop fuel k s).engine.villageHealth = s.engine.villageHealth := by
  intro fuel
  induction fuel with
  | zero => intro k s; rfl
  | succ fuel ih =>
      intro k s
      simp only [enemiesLoop]
      split
      · rw [ih, enemyInteract_villageHealth]
      · rfl

theorem enemiesLoop_gameOver_mono : ∀ (fuel k : ℕ) (s : ControllerState),
    s.gameOver = true → (enemiesLoop fuel k s).gameOver = true := by
  intro fuel
  induction fuel with
  | zero => intro k s h; exact h
  | succ fuel ih =>
      intro k s h
      simp only [enemiesLoop]
      split
      · exact ih _ _ (enemyInteract_gameOver_mono k s h)
      · exact h

theorem guardInteract_villageHealth (k : ℕ) (s : ControllerState) :
    (guardInteract k s).engine.villageHealth = s.engine.villageHealth := by
  simp only [guardInteract]
  repeat' split
  all_goals rfl

theorem guardInteract_gameOver (k : ℕ) (s : ControllerState) :
    (guardInteract k s).gameOver = s.gameOver := by
  simp only [guardInteract]
  repeat' split
  all_goals rfl

theorem guardsLoop_villageHealth : ∀ (fuel k : ℕ) (s : ControllerState),
    (guardsLoop fuel k s).engine.villageHealth = s.engine.villageHealth := by
  intro fuel
  induction fuel with
  | zero => intro k s; rfl
  | succ fuel ih =>
      intro k s
      simp only [guardsLoop]
      split
      · rw [ih, guardInteract_villageHealth]
      · rfl

theorem guardsLoop_gameOver : ∀ (fuel k : ℕ) (s : ControllerState),
    (guardsLoop fuel k s).gameOver = s.gameOver := by
  intro fuel
  induction fuel with
  | zero => intro k s; rfl
  | succ fuel ih =>
      intro k s
      simp only [guardsLoop]
      split
      · rw [ih, guardInteract_gameOver]
      · rfl

theorem checkVillageStatus_villageHealth (s : ControllerState) :
    (checkVillageStatus s).engine.villageHealth = s.engine.villageHealth := by
  simp only [checkVillageStatus]
  split
  · rw [endGame_villageHealth]
  · rfl

theorem checkVillageStatus_gameOver_mono (s : ControllerState)
    (h : s.gameOver = true) : (checkVillageStatus s).gameOver = true := by
  simp only [checkVillageStatus]
  split
  · exact endGame_gameOver_mono _ _ h
  · exact h

theorem updateDayCycle_villageHealth (s : EngineState) (d : ℚ) :
    (updateDayCycle s d).villageHealth = s.villageHealth := by
  rw [updateDayCycle]
  split <;> rfl

/-- Every operation of either controller variant leaves the engine's
village health unchanged: no code path invokes `damageVillage`. -/
theorem applyOp_villageHealth (op : GameOp) (s : ControllerState) :
    (applyOp op s).engine.villageHealth = s.engine.villageHealth := by
  cases op with
  | keydownFullOp key =>
      show (keydownFull key s).engine.villageHealth = _
      simp only [keydownFull]
      repeat' split
      all_goals first
        | rfl
        | (simp only [checkEnemyHits]; rw [hitsLoop_villageHealth])
  | keydownSimpleOp key =>
      show (keydownSimple key s).engine.villageHealth = _
      simp only [keydownSimple]
      repeat' split
      all_goals first
        | rfl
        | (simp only [checkEnemyHitsSimple]; rw [hitsLoopSimple_villageHealth])
  | keyupO key => rfl
  | clickFull mx my bid =>
      show (if s.buildMode then placeBuilding s mx my bid else s).engine.villageHealth = _
      split
      · simp only [placeBuilding]
        repeat' split
        all_goals rfl
      · rfl
  | clickSimple mx my bid =>
      show (if s.buildMode then placeBuildingSimple s mx my bid else s).engine.villageHealth = _
      split <;> rfl
  | waveCheck =>
      show (spawnWaveCheck s).1.engine.villageHealth = _
      simp only [spawnWaveCheck]
      split <;> rfl
  | simTickOp =>
      show (simTick s).engine.villageHealth = _
      simp only [simTick]
      split
      · rfl
      · rw [checkVillageStatus_villageHealth]
        simp only [updateGuards]
        rw [guardsLoop_villageHealth]
        simp only [updateEnemies]
        rw [enemiesLoop_villageHealth]
  | frameTickOp delta =>
      show (frameTick delta s).engine.villageHealth = _
      simp only [frameTick]
      rw [updateDayCycle_villageHealth]
  | enemyDriftOp i nx ny =>
      show (enemyDrift i nx ny s).engine.villageHealth = _
      simp only [enemyDrift]
      split <;> rfl
  | spawnTimer e =>
      show (spawnEnemyTimer e s).engine.villageHealth = _
      simp only [spawnEnemyTimer]
      split <;> rfl
  | guardTimer g => rfl
  | startOp =>
      show (startGame s).engine.villageHealth = _
      simp only [startGame]
      split <;> rfl
  | stopOp => rfl

/-- No operation of either controller variant resets the game-over flag. -/
theorem applyOp_gameOver_mono (op : GameOp) (s : ControllerState)
    (h : s.gameOver = true) : (applyOp op s).gameOver = true := by
  cases op with
  | keydownFullOp key =>
      show (keydownFull key s).gameOver = true
      simp only [keydownFull]
      repeat' split
      all_goals first
        | exact h
        | (simp only [checkEnemyHits]; rw [hitsLoop_gameOver]; exact h)
  | keydownSimpleOp key =>
      show (keydownSimple key s).gameOver = true
      simp only [keydownSimple]
      repeat' split
      all_goals first
        | exact h
        | (simp only [checkEnemyHitsSimple]; rw [hitsLoopSimple_gameOver]; exact h)
  | keyupO key => exact h
  | clickFull mx my bid =>
      show (if s.buildMode then placeBuilding s mx my bid else s).gameOver = true
      split
      · simp only [placeBuilding]
        repeat' split
        all_goals exact h
      · exact h
  | clickSimple mx my bid =>
      show (if s.buildMode then placeBuildingSimple s mx my bid else s).gameOver = true
      split <;> exact h
  | waveCheck =>
      show (spawnWaveCheck s).1.gameOver = true
      simp only [spawnWaveCheck]
      split <;> exact h
  | simTickOp =>
      show (simTick s).gameOver = true
      simp only [simTick]
      split
      all_goals first
        | exact h
        | (apply checkVillageStatus_gameOver_mono
           simp only [updateGuards]
           rw [guardsLoop_gameOver]
           simp only [updateEnemies]
           exact enemiesLoop_gameOver_mono _ _ _ h)
  | frameTickOp delta => exact h
  | enemyDriftOp i nx ny =>
      show (enemyDrift i nx ny s).gameOver = true
      simp only [enemyDrift]
      split <;> exact h
  | spawnTimer e =>
      show (spawnEnemyTimer e s).gameOver = true
      simp only [spawnEnemyTimer]
      split <;> exact h
  | guardTimer g => exact h
  | startOp =>
      show (startGame s).gameOver = true
      simp only [startGame]
      exact h
  | stopOp => exact h

/-- C4: the first `endGame` call sets the game-over flag, stops the
engine loop and emits the terminal message; any later call is a no-op that
leaves the state (message log included) unchanged; and no operation of
either controller variant ever leaves the game-over state. -/
theorem game_over_terminal (s : ControllerState) (m : String) :
    (s.gameOver = false → endGame s m = { s with
        gameOver := true,
        toasts := s.toasts ++ [m],
        engine := { s.engine with isRunning := false } }) ∧
    (s.gameOver = true → endGame s m = s) ∧
    (∀ op : GameOp, s.gameOver = true → (applyOp op s).gameOver = true) := by
  refine ⟨?_, ?_, ?_⟩
  · intro h
    rw [endGame, if_neg (by simp [h])]
  · intro h
    rw [endGame, if_pos h]
  · intro op h
    exact applyOp_gameOver_mono op s h

/-- Witness for C4: after the first game over from the initial state, a
wave-check tick leaves the game-over flag set. -/
theorem game_over_terminal_witness :
    (applyOp GameOp.waveCheck
      (endGame ctrlInit "Player died! The village is lost!")).gameOver = true :=
  (game_over_terminal (endGame ctrlInit "Player died! The village is lost!")
      "Village center destroyed! Game over!").2.2 GameOp.waveCheck rfl

/-- C10: in every reachable state of either controller variant the
engine's village health is still exactly 100, `getVillageHealth` never
returns a value ≤ 0, and the village-depleted loss condition of
`checkVillageStatus` never fires: the tick only applies the held movement
keys. -/
theorem village_health_constant (s : ControllerState) (hs : Reachable s) :
    s.engine.villageHealth = 100 ∧
    s.engine.getVillageHealth = 100 ∧
    ¬ s.engine.getVillageHealth ≤ 0 ∧
    checkVillageStatus s = { s with player := applyMovement s } := by
  have hvh : s.engine.villageHealth = 100 := by
    induction hs with
    | initFull => rfl
    | initSimple => rfl
    | step s' op _ ih => rw [applyOp_villageHealth]; exact ih
  have hpos : ¬ s.engine.getVillageHealth ≤ 0 := by
    show ¬ s.engine.villageHealth ≤ 0
    rw [hvh]
    norm_num
  refine ⟨hvh, hvh, hpos, ?_⟩
  simp only [checkVillageStatus]
  rw [if_neg hpos]

/-- Witness for C10 at the initial (reachable) state of the `part_001`
variant. -/
theorem village_health_constant_witness :
    ctrlInit.engine.villageHealth = 100 ∧
    ctrlInit.engine.getVillageHealth = 100 ∧
    ¬ ctrlInit.engine.getVillageHealth ≤ 0 ∧
    checkVillageStatus ctrlInit = { ctrlInit with player := applyMovement ctrlInit } :=
  village_health_constant ctrlInit Reachable.initFull
